import Mathlib

/-!
Verification of the brakes rate-limiting library core (src/types/mod.rs and
the algorithm modules it dispatches over).

The dispatch layer, error taxonomy and the byte-codec wrappers are embedded
directly from src/types/mod.rs.  The four algorithm state machines
(fixed window, sliding window, token bucket, leaky bucket) and the wire
codec of each state struct live in modules that are not part of the
provided sources, so they are modelled from the specification, as noted on
each definition.  Machine integers are modelled as Nat with explicit range
bounds; the f64 fields of the token- and leaky-bucket persisted state are
modelled by their 64-bit pattern for codec-level claims, and the
real-valued decision arithmetic of those algorithms is modelled over the
rationals.
-/

namespace Brakes

/-! ## Little-endian byte codec primitives (model of bincode fixint encoding) -/

/-- Little-endian byte list of width k for a natural number (model of how
bincode 1.x lays out fixed-width unsigned integers, least significant byte
first). -/
def natToLE : Nat → Nat → List Nat
  | 0, _ => []
  | k + 1, x => x % 256 :: natToLE k (x / 256)

/-- Read a little-endian byte list back into a natural number. -/
def leToNat : List Nat → Nat
  | [] => 0
  | b :: bs => b + 256 * leToNat bs

/-- Model of a bincode decode failure: the only way decoding a fixed-layout
struct can fail is running out of input bytes. -/
inductive BincodeError where
  | unexpectedEof : BincodeError
deriving DecidableEq, Repr

/-- Consume k bytes from the front of the input as a little-endian integer,
returning the value and the remaining bytes, or an end-of-input error. -/
def readLE (k : Nat) (bs : List Nat) : Except BincodeError (Nat × List Nat) :=
  if k ≤ bs.length then Except.ok (leToNat (bs.take k), bs.drop k)
  else Except.error BincodeError.unexpectedEof

theorem natToLE_length (k x : Nat) : (natToLE k x).length = k := by
  induction k generalizing x with
  | zero => simp [natToLE]
  | succ k ih => simp [natToLE, ih]

theorem leToNat_natToLE (k x : Nat) (h : x < 256 ^ k) :
    leToNat (natToLE k x) = x := by
  induction k generalizing x with
  | zero =>
    simp [natToLE, leToNat]
    omega
  | succ k ih =>
    have hdiv : x / 256 < 256 ^ k := by
      rw [Nat.div_lt_iff_lt_mul (by norm_num)]
      calc x < 256 ^ (k + 1) := h
        _ = 256 ^ k * 256 := by ring
    simp [natToLE, leToNat, ih (x / 256) hdiv]
    omega

theorem readLE_natToLE (k x : Nat) (rest : List Nat) (h : x < 256 ^ k) :
    readLE k (natToLE k x ++ rest) = Except.ok (x, rest) := by
  have hlen : (natToLE k x).length = k := natToLE_length k x
  simp [readLE, List.length_append, hlen, List.take_left' hlen,
    List.drop_left' hlen, leToNat_natToLE k x h]

theorem readLE_natToLE_nil (k x : Nat) (h : x < 256 ^ k) :
    readLE k (natToLE k x) = Except.ok (x, []) := by
  have := readLE_natToLE k x [] h
  simpa using this

/-- Positional characterization of the little-endian layout: byte i of the
encoding of x holds base-256 digit i of x. -/
theorem natToLE_getD (k x i : Nat) (h : i < k) :
    (natToLE k x).getD i 0 = x / 256 ^ i % 256 := by
  induction k generalizing x i with
  | zero => omega
  | succ k ih =>
    cases i with
    | zero => simp [natToLE]
    | succ i =>
      have hi : i < k := by omega
      simp only [natToLE, List.getD_cons_succ]
      rw [ih (x / 256) i hi, Nat.div_div_eq_div_mul, pow_succ, Nat.mul_comm]

/-! ## Error taxonomy (from src/types/mod.rs) -/

/-- The backend error type lives in the backend module (outside the core
types module); the core treats it as opaque, so it is modelled as a
single-constructor type. -/
inductive BackendError where
  | backendFailure : BackendError
deriving DecidableEq, Repr

/-- RateLimiterError from src/types/mod.rs lines 69-75: MalformedValue
carries an optional underlying bincode diagnostic. -/
inductive RateLimiterError where
  | MalformedValue : Option BincodeError → RateLimiterError
  | RateExceeded : RateLimiterError
  | BackendError : BackendError → RateLimiterError
  | BackendConflict : RateLimiterError
deriving DecidableEq, Repr

/-- Model of the map_err closure on src/types/mod.rs lines 62 and 65: a
bincode error is wrapped as MalformedValue (some e); both from_bytes and
to_bytes route their failures through this same mapping. -/
def mapMalformed {α : Type} : Except BincodeError α → Except RateLimiterError α
  | Except.ok a => Except.ok a
  | Except.error e => Except.error (RateLimiterError.MalformedValue (some e))

/-! ## Persisted state structs and their wire codecs

Modelled from the spec: the state struct definitions live in
src/types/fixed_window.rs, sliding_window.rs, token_bucket.rs and
leaky_bucket.rs, which are not among the provided sources.  Field names,
field order and widths follow spec sections 3 and 6 (fixed little-endian
binary layout, no embedded version or algorithm tag). -/

/-- Modelled from the spec: fixed-window persisted state,
wire format u64 window_start | u32 count. -/
structure FixedWindowInstance where
  window_start : Nat
  count : Nat
deriving DecidableEq, Repr

/-- Modelled from the spec: sliding-window persisted state,
wire format u64 window_start | u32 current_count | u32 previous_count. -/
structure SlidingWindowInstance where
  window_start : Nat
  current_count : Nat
  previous_count : Nat
deriving DecidableEq, Repr

/-- Modelled from the spec: token-bucket persisted state, wire format
f64 tokens | u64 last_refill.  The f64 field is modelled by its 64-bit
IEEE-754 pattern, which the codec moves losslessly as 8 bytes. -/
structure TokenBucketInstance where
  tokens_bits : Nat
  last_refill : Nat
deriving DecidableEq, Repr

/-- Modelled from the spec: leaky-bucket persisted state, wire format
f64 level | u64 last_leak.  The f64 field is modelled by its 64-bit
IEEE-754 pattern. -/
structure LeakyBucketInstance where
  level_bits : Nat
  last_leak : Nat
deriving DecidableEq, Repr

/-- Modelled from the spec: bincode serialization of the fixed-window
state (fixint little-endian, u64 then u32, never fails on this shape). -/
def serializeFixedWindow (f : FixedWindowInstance) :
    Except BincodeError (List Nat) :=
  Except.ok (natToLE 8 f.window_start ++ natToLE 4 f.count)

/-- Modelled from the spec: bincode deserialization of the fixed-window
state; reads a u64 then a u32, tolerating trailing bytes (bincode 1.x
default), failing only on insufficient input. -/
def deserializeFixedWindow (bs : List Nat) :
    Except BincodeError FixedWindowInstance :=
  match readLE 8 bs with
  | Except.error e => Except.error e
  | Except.ok (ws, bs1) =>
    match readLE 4 bs1 with
    | Except.error e => Except.error e
    | Except.ok (c, _) => Except.ok ⟨ws, c⟩

/-- Modelled from the spec: bincode serialization of the sliding-window
state (u64, u32, u32). -/
def serializeSlidingWindow (s : SlidingWindowInstance) :
    Except BincodeError (List Nat) :=
  Except.ok (natToLE 8 s.window_start ++ natToLE 4 s.current_count ++
    natToLE 4 s.previous_count)

/-- Modelled from the spec: bincode deserialization of the sliding-window
state. -/
def deserializeSlidingWindow (bs : List Nat) :
    Except BincodeError SlidingWindowInstance :=
  match readLE 8 bs with
  | Except.error e => Except.error e
  | Except.ok (ws, bs1) =>
    match readLE 4 bs1 with
    | Except.error e => Except.error e
    | Except.ok (cur, bs2) =>
      match readLE 4 bs2 with
      | Except.error e => Except.error e
      | Except.ok (prev, _) => Except.ok ⟨ws, cur, prev⟩

/-- Modelled from the spec: bincode serialization of the token-bucket
state (f64 bit pattern, then u64). -/
def serializeTokenBucket (t : TokenBucketInstance) :
    Except BincodeError (List Nat) :=
  Except.ok (natToLE 8 t.tokens_bits ++ natToLE 8 t.last_refill)

/-- Modelled from the spec: bincode deserialization of the token-bucket
state. -/
def deserializeTokenBucket (bs : List Nat) :
    Except BincodeError TokenBucketInstance :=
  match readLE 8 bs with
  | Except.error e => Except.error e
  | Except.ok (tk, bs1) =>
    match readLE 8 bs1 with
    | Except.error e => Except.error e
    | Except.ok (lr, _) => Except.ok ⟨tk, lr⟩

/-- Modelled from the spec: bincode serialization of the leaky-bucket
state (f64 bit pattern, then u64). -/
def serializeLeakyBucket (l : LeakyBucketInstance) :
    Except BincodeError (List Nat) :=
  Except.ok (natToLE 8 l.level_bits ++ natToLE 8 l.last_leak)

/-- Modelled from the spec: bincode deserialization of the leaky-bucket
state. -/
def deserializeLeakyBucket (bs : List Nat) :
    Except BincodeError LeakyBucketInstance :=
  match readLE 8 bs with
  | Except.error e => Except.error e
  | Except.ok (lv, bs1) =>
    match readLE 8 bs1 with
    | Except.error e => Except.error e
    | Except.ok (ll, _) => Except.ok ⟨lv, ll⟩

/-- from_bytes for the fixed-window state, mirroring the
SerializableInstance default method of src/types/mod.rs lines 61-63:
decode, wrapping any bincode error as MalformedValue (some e). -/
def FixedWindowInstance.from_bytes (bs : List Nat) :
    Except RateLimiterError FixedWindowInstance :=
  mapMalformed (deserializeFixedWindow bs)

/-- to_bytes for the fixed-window state, mirroring src/types/mod.rs
lines 64-66. -/
def FixedWindowInstance.to_bytes (f : FixedWindowInstance) :
    Except RateLimiterError (List Nat) :=
  mapMalformed (serializeFixedWindow f)

/-- from_bytes for the sliding-window state (mod.rs lines 61-63). -/
def SlidingWindowInstance.from_bytes (bs : List Nat) :
    Except RateLimiterError SlidingWindowInstance :=
  mapMalformed (deserializeSlidingWindow bs)

/-- to_bytes for the sliding-window state (mod.rs lines 64-66). -/
def SlidingWindowInstance.to_bytes (s : SlidingWindowInstance) :
    Except RateLimiterError (List Nat) :=
  mapMalformed (serializeSlidingWindow s)

/-- from_bytes for the token-bucket state (mod.rs lines 61-63). -/
def TokenBucketInstance.from_bytes (bs : List Nat) :
    Except RateLimiterError TokenBucketInstance :=
  mapMalformed (deserializeTokenBucket bs)

/-- to_bytes for the token-bucket state (mod.rs lines 64-66). -/
def TokenBucketInstance.to_bytes (t : TokenBucketInstance) :
    Except RateLimiterError (List Nat) :=
  mapMalformed (serializeTokenBucket t)

/-- from_bytes for the leaky-bucket state (mod.rs lines 61-63). -/
def LeakyBucketInstance.from_bytes (bs : List Nat) :
    Except RateLimiterError LeakyBucketInstance :=
  mapMalformed (deserializeLeakyBucket bs)

/-- to_bytes for the leaky-bucket state (mod.rs lines 64-66). -/
def LeakyBucketInstance.to_bytes (l : LeakyBucketInstance) :
    Except RateLimiterError (List Nat) :=
  mapMalformed (serializeLeakyBucket l)

/-! ## Variant dispatch layer (from src/types/mod.rs lines 22-58) -/

/-- The tagged union over the four algorithm instances
(src/types/mod.rs lines 22-28). -/
inductive LimiterInstance where
  | FixedWindowInstance : FixedWindowInstance → LimiterInstance
  | SlidingWindowInstance : SlidingWindowInstance → LimiterInstance
  | TokenBucketInstance : TokenBucketInstance → LimiterInstance
  | LeakyBucketInstance : LeakyBucketInstance → LimiterInstance
deriving DecidableEq, Repr

/-- Typed downcast accessor for the fixed-window variant
(src/types/mod.rs lines 31-36). -/
def LimiterInstance.as_fixed_window_instance :
    LimiterInstance → Except RateLimiterError Brakes.FixedWindowInstance
  | LimiterInstance.FixedWindowInstance i => Except.ok i
  | _ => Except.error (RateLimiterError.MalformedValue none)

/-- Typed downcast accessor for the sliding-window variant
(src/types/mod.rs lines 38-43). -/
def LimiterInstance.as_sliding_window_instance :
    LimiterInstance → Except RateLimiterError Brakes.SlidingWindowInstance
  | LimiterInstance.SlidingWindowInstance i => Except.ok i
  | _ => Except.error (RateLimiterError.MalformedValue none)

/-- Typed downcast accessor for the token-bucket variant
(src/types/mod.rs lines 45-50). -/
def LimiterInstance.as_token_bucket_instance :
    LimiterInstance → Except RateLimiterError Brakes.TokenBucketInstance
  | LimiterInstance.TokenBucketInstance i => Except.ok i
  | _ => Except.error (RateLimiterError.MalformedValue none)

/-- Typed downcast accessor for the leaky-bucket variant
(src/types/mod.rs lines 52-57). -/
def LimiterInstance.as_leaky_bucket_instance :
    LimiterInstance → Except RateLimiterError Brakes.LeakyBucketInstance
  | LimiterInstance.LeakyBucketInstance i => Except.ok i
  | _ => Except.error (RateLimiterError.MalformedValue none)

/-! ## Algorithm decision functions

Modelled from the spec: the decision functions live in the four algorithm
modules, which are not among the provided sources; each definition follows
the corresponding step list of spec section 4.  The result pairs the new
state with true for admission and false for denial. -/

/-- Modelled from the spec (section 4.2): fixed-window decision.
bucket = floor(now / W) * W; if bucket differs from window_start the
window resets to (bucket, 0); admit and add cost iff count + cost <= L. -/
def fixedWindowDecide (L W now cost : Nat) (s : FixedWindowInstance) :
    FixedWindowInstance × Bool :=
  let bucket := now / W * W
  let s' := if bucket ≠ s.window_start then ⟨bucket, 0⟩ else s
  if s'.count + cost ≤ L then (⟨s'.window_start, s'.count + cost⟩, true)
  else (s', false)

/-- Modelled from the spec (section 4.3): sliding-window decision with
boundary-weighted estimate over the rationals.  Roll forward one slot when
bucket = window_start + W, reset both counts after a longer gap, then
admit iff current + previous * (1 - elapsed_fraction) + cost <= L. -/
def slidingWindowDecide (L W now cost : Nat) (s : SlidingWindowInstance) :
    SlidingWindowInstance × Bool :=
  let bucket := now / W * W
  let s' :=
    if bucket = s.window_start then s
    else if bucket = s.window_start + W then ⟨bucket, 0, s.current_count⟩
    else if s.window_start + W < bucket then ⟨bucket, 0, 0⟩
    else s
  let ef : ℚ := ((now : ℚ) - (bucket : ℚ)) / (W : ℚ)
  let est : ℚ := (s'.current_count : ℚ) + (s'.previous_count : ℚ) * (1 - ef)
  if est + (cost : ℚ) ≤ (L : ℚ) then
    (⟨s'.window_start, s'.current_count + cost, s'.previous_count⟩, true)
  else (s', false)

/-- Modelled from the spec (sections 3 and 4.4): in-memory token-bucket
state with real-valued tokens (the spec mandates no implicit flooring). -/
structure TokenBucketState where
  tokens : ℚ
  last_refill : Nat
deriving DecidableEq, Repr

/-- Modelled from the spec (section 4.4): token-bucket decision.  Elapsed
time is clamped at zero (Nat subtraction), the refill is capped at
capacity and applied on every call, and the request is admitted iff the
refilled tokens cover the cost. -/
def tokenBucketDecide (capacity refill_rate cost : ℚ) (now : Nat)
    (s : TokenBucketState) : TokenBucketState × Bool :=
  let elapsed : Nat := now - s.last_refill
  let tokens' := min capacity (s.tokens + (elapsed : ℚ) * refill_rate)
  if cost ≤ tokens' then (⟨tokens' - cost, now⟩, true)
  else (⟨tokens', now⟩, false)

/-- Modelled from the spec (sections 3 and 4.5): in-memory leaky-bucket
state with a real-valued level. -/
structure LeakyBucketState where
  level : ℚ
  last_leak : Nat
deriving DecidableEq, Repr

/-- Modelled from the spec (section 4.5): leaky-bucket decision.  The leak
is applied on every call (level floored at zero), and the request is
admitted iff the leaked level plus cost fits under capacity. -/
def leakyBucketDecide (capacity leak_rate cost : ℚ) (now : Nat)
    (s : LeakyBucketState) : LeakyBucketState × Bool :=
  let elapsed : Nat := now - s.last_leak
  let level' := max 0 (s.level - (elapsed : ℚ) * leak_rate)
  if level' + cost ≤ capacity then (⟨level' + cost, now⟩, true)
  else (⟨level', now⟩, false)

/-! ## The is_ratelimited entry point

Modelled from the spec (section 4.1): each algorithm implements
is_ratelimited over optional state bytes.  The per-variant implementations
are not among the provided sources, so the shared shape is modelled once,
parametrized by the variant's decoder, default state, decision function
and encoder. -/

/-- Run one decision: an admitted request yields the newly encoded state,
a denied one yields RateExceeded. -/
def run_decision {σ : Type} (dec : σ → Option σ)
    (tb : σ → Except RateLimiterError (List Nat)) (s : σ) :
    Except RateLimiterError (List Nat) :=
  match dec s with
  | some s2 => tb s2
  | none => Except.error RateLimiterError.RateExceeded

/-- Modelled from the spec (section 4.1): is_ratelimited over optional
current state bytes.  Absent bytes stand for the default initial state;
present bytes are decoded (failures propagate) and the decision runs on
the decoded state. -/
def is_ratelimited {σ : Type}
    (fb : List Nat → Except RateLimiterError σ) (default_state : σ)
    (dec : σ → Option σ) (tb : σ → Except RateLimiterError (List Nat))
    (value : Option (List Nat)) : Except RateLimiterError (List Nat) :=
  match value with
  | none => run_decision dec tb default_state
  | some bytes =>
    match fb bytes with
    | Except.ok s => run_decision dec tb s
    | Except.error e => Except.error e

/-- A concrete fixed-window decision step (limit 3, window 60, time 0,
cost 1) in the Option shape used by the dispatch model: some new state on
admission, none on denial. -/
def fwDec (s : FixedWindowInstance) : Option FixedWindowInstance :=
  let r := fixedWindowDecide 3 60 0 1 s
  if r.2 then some r.1 else none

/-- The wire bytes of the fixed-window state (0, 0). -/
def fwBytes0 : List Nat := natToLE 8 0 ++ natToLE 4 0

/-- The wire bytes of the fixed-window state (0, 3). -/
def fwBytes3 : List Nat := natToLE 8 0 ++ natToLE 4 3

/-! ## Claim theorems -/

/-- C1: each typed downcast accessor of LimiterInstance returns the
concrete instance when the tagged union holds that variant, and returns
the MalformedValue error on each of the three other variants, never
reinterpreting the other variant's state. -/
theorem downcast_accessors_sound :
    (∀ f : FixedWindowInstance,
      (LimiterInstance.FixedWindowInstance f).as_fixed_window_instance =
        Except.ok f) ∧
    (∀ s : SlidingWindowInstance,
      (LimiterInstance.SlidingWindowInstance s).as_fixed_window_instance =
        Except.error (RateLimiterError.MalformedValue none)) ∧
    (∀ t : TokenBucketInstance,
      (LimiterInstance.TokenBucketInstance t).as_fixed_window_instance =
        Except.error (RateLimiterError.MalformedValue none)) ∧
    (∀ l : LeakyBucketInstance,
      (LimiterInstance.LeakyBucketInstance l).as_fixed_window_instance =
        Except.error (RateLimiterError.MalformedValue none)) ∧
    (∀ s : SlidingWindowInstance,
      (LimiterInstance.SlidingWindowInstance s).as_sliding_window_instance =
        Except.ok s) ∧
    (∀ f : FixedWindowInstance,
      (LimiterInstance.FixedWindowInstance f).as_sliding_window_instance =
        Except.error (RateLimiterError.MalformedValue none)) ∧
    (∀ t : TokenBucketInstance,
      (LimiterInstance.TokenBucketInstance t).as_sliding_window_instance =
        Except.error (RateLimiterError.MalformedValue none)) ∧
    (∀ l : LeakyBucketInstance,
      (LimiterInstance.LeakyBucketInstance l).as_sliding_window_instance =
        Except.error (RateLimiterError.MalformedValue none)) ∧
    (∀ t : TokenBucketInstance,
      (LimiterInstance.TokenBucketInstance t).as_token_bucket_instance =
        Except.ok t) ∧
    (∀ f : FixedWindowInstance,
      (LimiterInstance.FixedWindowInstance f).as_token_bucket_instance =
        Except.error (RateLimiterError.MalformedValue none)) ∧
    (∀ s : SlidingWindowInstance,
      (LimiterInstance.SlidingWindowInstance s).as_token_bucket_instance =
        Except.error (RateLimiterError.MalformedValue none)) ∧
    (∀ l : LeakyBucketInstance,
      (LimiterInstance.LeakyBucketInstance l).as_token_bucket_instance =
        Except.error (RateLimiterError.MalformedValue none)) ∧
    (∀ l : LeakyBucketInstance,
      (LimiterInstance.LeakyBucketInstance l).as_leaky_bucket_instance =
        Except.ok l) ∧
    (∀ f : FixedWindowInstance,
      (LimiterInstance.FixedWindowInstance f).as_leaky_bucket_instance =
        Except.error (RateLimiterError.MalformedValue none)) ∧
    (∀ s : SlidingWindowInstance,
      (LimiterInstance.SlidingWindowInstance s).as_leaky_bucket_instance =
        Except.error (RateLimiterError.MalformedValue none)) ∧
    (∀ t : TokenBucketInstance,
      (LimiterInstance.TokenBucketInstance t).as_leaky_bucket_instance =
        Except.error (RateLimiterError.MalformedValue none)) :=
  ⟨fun _ => rfl, fun _ => rfl, fun _ => rfl, fun _ => rfl,
   fun _ => rfl, fun _ => rfl, fun _ => rfl, fun _ => rfl,
   fun _ => rfl, fun _ => rfl, fun _ => rfl, fun _ => rfl,
   fun _ => rfl, fun _ => rfl, fun _ => rfl, fun _ => rfl⟩

/-- C10: the MalformedValue diagnostic asymmetry.  Every wrong-variant
downcast yields MalformedValue with payload none; every decode failure in
from_bytes yields MalformedValue carrying the bincode diagnostic; and
to_bytes routes a serialization failure through the same
MalformedValue (some e) mapping rather than a distinct error kind. -/
theorem malformed_payload_asymmetry :
    (∀ s : SlidingWindowInstance,
      (LimiterInstance.SlidingWindowInstance s).as_fixed_window_instance =
        Except.error (RateLimiterError.MalformedValue none)) ∧
    (∀ t : TokenBucketInstance,
      (LimiterInstance.TokenBucketInstance t).as_fixed_window_instance =
        Except.error (RateLimiterError.MalformedValue none)) ∧
    (∀ l : LeakyBucketInstance,
      (LimiterInstance.LeakyBucketInstance l).as_fixed_window_instance =
        Except.error (RateLimiterError.MalformedValue none)) ∧
    (∀ f : FixedWindowInstance,
      (LimiterInstance.FixedWindowInstance f).as_sliding_window_instance =
        Except.error (RateLimiterError.MalformedValue none)) ∧
    (∀ t : TokenBucketInstance,
      (LimiterInstance.TokenBucketInstance t).as_sliding_window_instance =
        Except.error (RateLimiterError.MalformedValue none)) ∧
    (∀ l : LeakyBucketInstance,
      (LimiterInstance.LeakyBucketInstance l).as_sliding_window_instance =
        Except.error (RateLimiterError.MalformedValue none)) ∧
    (∀ f : FixedWindowInstance,
      (LimiterInstance.FixedWindowInstance f).as_token_bucket_instance =
        Except.error (RateLimiterError.MalformedValue none)) ∧
    (∀ s : SlidingWindowInstance,
      (LimiterInstance.SlidingWindowInstance s).as_token_bucket_instance =
        Except.error (RateLimiterError.MalformedValue none)) ∧
    (∀ l : LeakyBucketInstance,
      (LimiterInstance.LeakyBucketInstance l).as_token_bucket_instance =
        Except.error (RateLimiterError.MalformedValue none)) ∧
    (∀ f : FixedWindowInstance,
      (LimiterInstance.FixedWindowInstance f).as_leaky_bucket_instance =
        Except.error (RateLimiterError.MalformedValue none)) ∧
    (∀ s : SlidingWindowInstance,
      (LimiterInstance.SlidingWindowInstance s).as_leaky_bucket_instance =
        Except.error (RateLimiterError.MalformedValue none)) ∧
    (∀ t : TokenBucketInstance,
      (LimiterInstance.TokenBucketInstance t).as_leaky_bucket_instance =
        Except.error (RateLimiterError.MalformedValue none)) ∧
    (∀ (bs : List Nat) (e : BincodeError),
      deserializeFixedWindow bs = Except.error e →
      FixedWindowInstance.from_bytes bs =
        Except.error (RateLimiterError.MalformedValue (some e))) ∧
    (∀ (bs : List Nat) (e : BincodeError),
      deserializeSlidingWindow bs = Except.error e →
      SlidingWindowInstance.from_bytes bs =
        Except.error (RateLimiterError.MalformedValue (some e))) ∧
    (∀ (bs : List Nat) (e : BincodeError),
      deserializeTokenBucket bs = Except.error e →
      TokenBucketInstance.from_bytes bs =
        Except.error (RateLimiterError.MalformedValue (some e))) ∧
    (∀ (bs : List Nat) (e : BincodeError),
      deserializeLeakyBucket bs = Except.error e →
      LeakyBucketInstance.from_bytes bs =
        Except.error (RateLimiterError.MalformedValue (some e))) ∧
    (∀ f : FixedWindowInstance,
      FixedWindowInstance.to_bytes f = mapMalformed (serializeFixedWindow f)) ∧
    (∀ s : SlidingWindowInstance,
      SlidingWindowInstance.to_bytes s =
        mapMalformed (serializeSlidingWindow s)) ∧
    (∀ t : TokenBucketInstance,
      TokenBucketInstance.to_bytes t = mapMalformed (serializeTokenBucket t)) ∧
    (∀ l : LeakyBucketInstance,
      LeakyBucketInstance.to_bytes l = mapMalformed (serializeLeakyBucket l)) ∧
    (∀ e : BincodeError,
      mapMalformed (Except.error e : Except BincodeError (List Nat)) =
        Except.error (RateLimiterError.MalformedValue (some e))) := by
  refine ⟨fun _ => rfl, fun _ => rfl, fun _ => rfl, fun _ => rfl,
    fun _ => rfl, fun _ => rfl, fun _ => rfl, fun _ => rfl,
    fun _ => rfl, fun _ => rfl, fun _ => rfl, fun _ => rfl,
    ?_, ?_, ?_, ?_, fun _ => rfl, fun _ => rfl, fun _ => rfl, fun _ => rfl,
    fun _ => rfl⟩ <;>
  · intro bs e h
    simp [FixedWindowInstance.from_bytes, SlidingWindowInstance.from_bytes,
      TokenBucketInstance.from_bytes, LeakyBucketInstance.from_bytes, h,
      mapMalformed]

/-- Witness for C10: the empty byte string fails to decode for every
variant and the error surfaces as MalformedValue carrying the diagnostic. -/
theorem malformed_payload_asymmetry_witness :
    FixedWindowInstance.from_bytes [] =
      Except.error (RateLimiterError.MalformedValue
        (some BincodeError.unexpectedEof)) ∧
    SlidingWindowInstance.from_bytes [] =
      Except.error (RateLimiterError.MalformedValue
        (some BincodeError.unexpectedEof)) ∧
    TokenBucketInstance.from_bytes [] =
      Except.error (RateLimiterError.MalformedValue
        (some BincodeError.unexpectedEof)) ∧
    LeakyBucketInstance.from_bytes [] =
      Except.error (RateLimiterError.MalformedValue
        (some BincodeError.unexpectedEof)) := by
  obtain ⟨-, -, -, -, -, -, -, -, -, -, -, -, hfw, hsw, htb, hlb, -⟩ :=
    malformed_payload_asymmetry
  exact ⟨hfw [] BincodeError.unexpectedEof rfl,
    hsw [] BincodeError.unexpectedEof rfl,
    htb [] BincodeError.unexpectedEof rfl,
    hlb [] BincodeError.unexpectedEof rfl⟩

/-- C2: for every algorithm variant and every valid state (fields within
their wire widths, boundary values included), decoding the encoding gives
the state back, and both encode and decode are deterministic functions of
their input. -/
theorem roundtrip_encode_decode :
    (∀ f : FixedWindowInstance,
      f.window_start < 2 ^ 64 → f.count < 2 ^ 32 →
      ∃ bs, f.to_bytes = Except.ok bs ∧
        FixedWindowInstance.from_bytes bs = Except.ok f) ∧
    (∀ s : SlidingWindowInstance,
      s.window_start < 2 ^ 64 → s.current_count < 2 ^ 32 →
      s.previous_count < 2 ^ 32 →
      ∃ bs, s.to_bytes = Except.ok bs ∧
        SlidingWindowInstance.from_bytes bs = Except.ok s) ∧
    (∀ t : TokenBucketInstance,
      t.tokens_bits < 2 ^ 64 → t.last_refill < 2 ^ 64 →
      ∃ bs, t.to_bytes = Except.ok bs ∧
        TokenBucketInstance.from_bytes bs = Except.ok t) ∧
    (∀ l : LeakyBucketInstance,
      l.level_bits < 2 ^ 64 → l.last_leak < 2 ^ 64 →
      ∃ bs, l.to_bytes = Except.ok bs ∧
        LeakyBucketInstance.from_bytes bs = Except.ok l) ∧
    (∀ f : FixedWindowInstance, f.to_bytes = f.to_bytes) ∧
    (∀ bs : List Nat,
      FixedWindowInstance.from_bytes bs = FixedWindowInstance.from_bytes bs) ∧
    (∀ t : TokenBucketInstance, t.to_bytes = t.to_bytes) ∧
    (∀ bs : List Nat,
      TokenBucketInstance.from_bytes bs = TokenBucketInstance.from_bytes bs) := by
  have h64 : (256 : Nat) ^ 8 = 2 ^ 64 := by norm_num
  have h32 : (256 : Nat) ^ 4 = 2 ^ 32 := by norm_num
  refine ⟨?_, ?_, ?_, ?_, fun _ => rfl, fun _ => rfl, fun _ => rfl,
    fun _ => rfl⟩
  · rintro ⟨ws, c⟩ hws hc
    refine ⟨natToLE 8 ws ++ natToLE 4 c, rfl, ?_⟩
    have h8 : ws < 256 ^ 8 := by rw [h64]; exact hws
    have h4 : c < 256 ^ 4 := by rw [h32]; exact hc
    simp [FixedWindowInstance.from_bytes, deserializeFixedWindow,
      readLE_natToLE 8 ws _ h8, readLE_natToLE_nil 4 c h4, mapMalformed]
  · rintro ⟨ws, cur, prev⟩ hws hcur hprev
    refine ⟨natToLE 8 ws ++ natToLE 4 cur ++ natToLE 4 prev, rfl, ?_⟩
    have h8 : ws < 256 ^ 8 := by rw [h64]; exact hws
    have h4c : cur < 256 ^ 4 := by rw [h32]; exact hcur
    have h4p : prev < 256 ^ 4 := by rw [h32]; exact hprev
    simp [SlidingWindowInstance.from_bytes, deserializeSlidingWindow,
      List.append_assoc, readLE_natToLE 8 ws _ h8, readLE_natToLE 4 cur _ h4c,
      readLE_natToLE_nil 4 prev h4p, mapMalformed]
  · rintro ⟨tk, lr⟩ htk hlr
    refine ⟨natToLE 8 tk ++ natToLE 8 lr, rfl, ?_⟩
    have h8t : tk < 256 ^ 8 := by rw [h64]; exact htk
    have h8l : lr < 256 ^ 8 := by rw [h64]; exact hlr
    simp [TokenBucketInstance.from_bytes, deserializeTokenBucket,
      readLE_natToLE 8 tk _ h8t, readLE_natToLE_nil 8 lr h8l, mapMalformed]
  · rintro ⟨lv, ll⟩ hlv hll
    refine ⟨natToLE 8 lv ++ natToLE 8 ll, rfl, ?_⟩
    have h8v : lv < 256 ^ 8 := by rw [h64]; exact hlv
    have h8l : ll < 256 ^ 8 := by rw [h64]; exact hll
    simp [LeakyBucketInstance.from_bytes, deserializeLeakyBucket,
      readLE_natToLE 8 lv _ h8v, readLE_natToLE_nil 8 ll h8l, mapMalformed]

/-- Witness for C2: the round trip holds at the all-zero boundary state of
each variant (zero counts, zero tokens, timestamp 0). -/
theorem roundtrip_encode_decode_witness :
    (∃ bs, FixedWindowInstance.to_bytes ⟨0, 0⟩ = Except.ok bs ∧
      FixedWindowInstance.from_bytes bs = Except.ok ⟨0, 0⟩) ∧
    (∃ bs, SlidingWindowInstance.to_bytes ⟨0, 0, 0⟩ = Except.ok bs ∧
      SlidingWindowInstance.from_bytes bs = Except.ok ⟨0, 0, 0⟩) ∧
    (∃ bs, TokenBucketInstance.to_bytes ⟨0, 0⟩ = Except.ok bs ∧
      TokenBucketInstance.from_bytes bs = Except.ok ⟨0, 0⟩) ∧
    (∃ bs, LeakyBucketInstance.to_bytes ⟨0, 0⟩ = Except.ok bs ∧
      LeakyBucketInstance.from_bytes bs = Except.ok ⟨0, 0⟩) := by
  obtain ⟨hfw, hsw, htb, hlb, -⟩ := roundtrip_encode_decode
  exact ⟨hfw ⟨0, 0⟩ (by norm_num) (by norm_num),
    hsw ⟨0, 0, 0⟩ (by norm_num) (by norm_num) (by norm_num),
    htb ⟨0, 0⟩ (by norm_num) (by norm_num),
    hlb ⟨0, 0⟩ (by norm_num) (by norm_num)⟩

/-- C8: serialized states follow the fixed little-endian layout with no
embedded version or algorithm tag: fixed window is exactly the 8 bytes of
window_start followed by the 4 bytes of count (12 bytes), sliding window
is window_start, current_count, previous_count (16 bytes), token bucket is
the 8 bytes of the tokens f64 pattern then last_refill (16 bytes), leaky
bucket likewise (16 bytes); and byte i of each field block is base-256
digit i of the field, i.e. little-endian order. -/
theorem wire_format_layout :
    (∀ f : FixedWindowInstance,
      ∃ bs, f.to_bytes = Except.ok bs ∧ bs.length = 12 ∧
        bs.take 8 = natToLE 8 f.window_start ∧
        bs.drop 8 = natToLE 4 f.count) ∧
    (∀ s : SlidingWindowInstance,
      ∃ bs, s.to_bytes = Except.ok bs ∧ bs.length = 16 ∧
        bs.take 8 = natToLE 8 s.window_start ∧
        (bs.drop 8).take 4 = natToLE 4 s.current_count ∧
        bs.drop 12 = natToLE 4 s.previous_count) ∧
    (∀ t : TokenBucketInstance,
      ∃ bs, t.to_bytes = Except.ok bs ∧ bs.length = 16 ∧
        bs.take 8 = natToLE 8 t.tokens_bits ∧
        bs.drop 8 = natToLE 8 t.last_refill) ∧
    (∀ l : LeakyBucketInstance,
      ∃ bs, l.to_bytes = Except.ok bs ∧ bs.length = 16 ∧
        bs.take 8 = natToLE 8 l.level_bits ∧
        bs.drop 8 = natToLE 8 l.last_leak) ∧
    (∀ k x i : Nat, i < k → (natToLE k x).getD i 0 = x / 256 ^ i % 256) := by
  refine ⟨?_, ?_, ?_, ?_, natToLE_getD⟩
  · intro f
    refine ⟨natToLE 8 f.window_start ++ natToLE 4 f.count, rfl, ?_, ?_, ?_⟩
    · simp [natToLE_length]
    · exact List.take_left' (natToLE_length 8 f.window_start)
    · exact List.drop_left' (natToLE_length 8 f.window_start)
  · intro s
    have hbs : natToLE 8 s.window_start ++ natToLE 4 s.current_count ++
        natToLE 4 s.previous_count =
        natToLE 8 s.window_start ++ (natToLE 4 s.current_count ++
          natToLE 4 s.previous_count) := List.append_assoc _ _ _
    refine ⟨natToLE 8 s.window_start ++ natToLE 4 s.current_count ++
      natToLE 4 s.previous_count, rfl, ?_, ?_, ?_, ?_⟩
    · simp [natToLE_length]
    · rw [hbs]; exact List.take_left' (natToLE_length 8 s.window_start)
    · rw [hbs, List.drop_left' (natToLE_length 8 s.window_start)]
      exact List.take_left' (natToLE_length 4 s.current_count)
    · have h12 : (natToLE 8 s.window_start ++ natToLE 4 s.current_count ++
          natToLE 4 s.previous_count).drop 12 =
          ((natToLE 8 s.window_start ++ natToLE 4 s.current_count ++
            natToLE 4 s.previous_count).drop 8).drop 4 := by
        rw [List.drop_drop]
      rw [h12, hbs, List.drop_left' (natToLE_length 8 s.window_start)]
      exact List.drop_left' (natToLE_length 4 s.current_count)
  · intro t
    refine ⟨natToLE 8 t.tokens_bits ++ natToLE 8 t.last_refill, rfl, ?_, ?_, ?_⟩
    · simp [natToLE_length]
    · exact List.take_left' (natToLE_length 8 t.tokens_bits)
    · exact List.drop_left' (natToLE_length 8 t.tokens_bits)
  · intro l
    refine ⟨natToLE 8 l.level_bits ++ natToLE 8 l.last_leak, rfl, ?_, ?_, ?_⟩
    · simp [natToLE_length]
    · exact List.take_left' (natToLE_length 8 l.level_bits)
    · exact List.drop_left' (natToLE_length 8 l.level_bits)

/-- Witness for C8: the little-endian digit characterization evaluated at
a concrete field value; byte 1 of the encoding of 258 is 1. -/
theorem wire_format_layout_witness :
    (natToLE 8 258).getD 1 0 = 258 / 256 ^ 1 % 256 :=
  wire_format_layout.2.2.2.2 8 258 1 (by norm_num)

/-- C3: the fixed-window decision.  When the computed bucket differs from
the stored window_start the call behaves exactly as on the reset state
(bucket, 0); within the current window the request is admitted with count
incremented by cost iff count + cost <= L, and denial leaves the
(possibly reset) window with count not incremented.  With limit 3 and a
60 second window, requests at t = 0, 1, 2 are admitted reaching count 3,
the request at t = 3 is denied, and the request at t = 61 is admitted
with the count reset to 1. -/
theorem fixed_window_decision :
    (∀ L W now cost ws c : Nat, 0 < W → now / W * W ≠ ws →
      fixedWindowDecide L W now cost ⟨ws, c⟩ =
        fixedWindowDecide L W now cost ⟨now / W * W, 0⟩) ∧
    (∀ L W now cost ws c : Nat, 0 < W → now / W * W = ws →
      c + cost ≤ L →
      fixedWindowDecide L W now cost ⟨ws, c⟩ = (⟨ws, c + cost⟩, true)) ∧
    (∀ L W now cost ws c : Nat, 0 < W → now / W * W = ws →
      L < c + cost →
      fixedWindowDecide L W now cost ⟨ws, c⟩ = (⟨ws, c⟩, false)) ∧
    fixedWindowDecide 3 60 0 1 ⟨0, 0⟩ = (⟨0, 1⟩, true) ∧
    fixedWindowDecide 3 60 1 1 ⟨0, 1⟩ = (⟨0, 2⟩, true) ∧
    fixedWindowDecide 3 60 2 1 ⟨0, 2⟩ = (⟨0, 3⟩, true) ∧
    fixedWindowDecide 3 60 3 1 ⟨0, 3⟩ = (⟨0, 3⟩, false) ∧
    fixedWindowDecide 3 60 61 1 ⟨0, 3⟩ = (⟨60, 1⟩, true) := by
  refine ⟨?_, ?_, ?_, by decide, by decide, by decide, by decide, by decide⟩
  · intro L W now cost ws c hW h
    simp [fixedWindowDecide, h]
  · intro L W now cost ws c hW h hle
    simp [fixedWindowDecide, h, hle]
  · intro L W now cost ws c hW h hlt
    have hn : ¬ (c + cost ≤ L) := by omega
    simp [fixedWindowDecide, h, hn]

/-- Witness for C3: the general clauses evaluated at the spec's concrete
scenario, limit 3 and window 60: the call at t = 61 on counter state
(0, 3) equals the call on the reset state (60, 0); the call at t = 0 on
the initial state admits; the call at t = 3 on count 3 denies. -/
theorem fixed_window_decision_witness :
    fixedWindowDecide 3 60 61 1 ⟨0, 3⟩ = fixedWindowDecide 3 60 61 1 ⟨60, 0⟩ ∧
    fixedWindowDecide 3 60 0 1 ⟨0, 0⟩ = (⟨0, 1⟩, true) ∧
    fixedWindowDecide 3 60 3 1 ⟨0, 3⟩ = (⟨0, 3⟩, false) :=
  ⟨fixed_window_decision.1 3 60 61 1 0 3 (by decide) (by decide),
   fixed_window_decision.2.1 3 60 0 1 0 0 (by decide) (by decide) (by decide),
   fixed_window_decision.2.2.1 3 60 3 1 0 3 (by decide) (by decide) (by decide)⟩

/-- C4: the sliding-window decision.  Rolling one slot forward
(bucket = window_start + W) behaves exactly as on the rolled state with
previous_count = current_count and current_count = 0; a longer gap
behaves as on the fully reset state; within the current slot the request
is admitted, adding cost to current_count, iff
current_count + previous_count * (1 - elapsed_fraction) + cost <= L, and
denial mutates nothing.  With limit 10, window 60, previous_count 10 and
the slot half elapsed, the estimate is 5, cost 5 is admitted and cost 6
is denied. -/
theorem sliding_window_decision :
    (∀ L W now cost ws cur prev : Nat, 0 < W → now / W * W = ws + W →
      slidingWindowDecide L W now cost ⟨ws, cur, prev⟩ =
        slidingWindowDecide L W now cost ⟨ws + W, 0, cur⟩) ∧
    (∀ L W now cost ws cur prev : Nat, 0 < W → ws + W < now / W * W →
      slidingWindowDecide L W now cost ⟨ws, cur, prev⟩ =
        slidingWindowDecide L W now cost ⟨now / W * W, 0, 0⟩) ∧
    (∀ L W now cost ws cur prev : Nat, 0 < W → now / W * W = ws →
      (cur : ℚ) + (prev : ℚ) * (1 - ((now : ℚ) - (ws : ℚ)) / (W : ℚ)) +
        (cost : ℚ) ≤ (L : ℚ) →
      slidingWindowDecide L W now cost ⟨ws, cur, prev⟩ =
        (⟨ws, cur + cost, prev⟩, true)) ∧
    (∀ L W now cost ws cur prev : Nat, 0 < W → now / W * W = ws →
      (L : ℚ) < (cur : ℚ) + (prev : ℚ) *
        (1 - ((now : ℚ) - (ws : ℚ)) / (W : ℚ)) + (cost : ℚ) →
      slidingWindowDecide L W now cost ⟨ws, cur, prev⟩ =
        (⟨ws, cur, prev⟩, false)) ∧
    (0 : ℚ) + (10 : ℚ) * (1 - ((30 : ℚ) - (0 : ℚ)) / (60 : ℚ)) = 5 ∧
    slidingWindowDecide 10 60 30 5 ⟨0, 0, 10⟩ = (⟨0, 5, 10⟩, true) ∧
    slidingWindowDecide 10 60 30 6 ⟨0, 0, 10⟩ = (⟨0, 0, 10⟩, false) := by
  refine ⟨?_, ?_, ?_, ?_, by norm_num, by norm_num [slidingWindowDecide],
    by norm_num [slidingWindowDecide]⟩
  · intro L W now cost ws cur prev hW h
    have hne : ws + W ≠ ws := by omega
    simp [slidingWindowDecide, h, hne]
  · intro L W now cost ws cur prev hW hgap
    have h1 : ¬ (now / W * W = ws) := by omega
    have h2 : ¬ (now / W * W = ws + W) := by omega
    simp [slidingWindowDecide, h1, h2, hgap]
  · intro L W now cost ws cur prev hW h hadm
    simp [slidingWindowDecide, h, hadm]
  · intro L W now cost ws cur prev hW h hdeny
    have hn : ¬ ((cur : ℚ) + (prev : ℚ) *
        (1 - ((now : ℚ) - (ws : ℚ)) / (W : ℚ)) + (cost : ℚ) ≤ (L : ℚ)) :=
      not_le.mpr hdeny
    simp [slidingWindowDecide, h, hn]

/-- Witness for C4: the general clauses at the spec's concrete scenario,
limit 10, window 60, previous slot count 10, half elapsed. -/
theorem sliding_window_decision_witness :
    slidingWindowDecide 10 60 90 1 ⟨0, 4, 10⟩ =
      slidingWindowDecide 10 60 90 1 ⟨60, 0, 4⟩ ∧
    slidingWindowDecide 10 60 150 1 ⟨0, 4, 10⟩ =
      slidingWindowDecide 10 60 150 1 ⟨120, 0, 0⟩ ∧
    slidingWindowDecide 10 60 30 5 ⟨0, 0, 10⟩ = (⟨0, 5, 10⟩, true) ∧
    slidingWindowDecide 10 60 30 6 ⟨0, 0, 10⟩ = (⟨0, 0, 10⟩, false) :=
  ⟨sliding_window_decision.1 10 60 90 1 0 4 10 (by decide) (by decide),
   sliding_window_decision.2.1 10 60 150 1 0 4 10 (by decide) (by decide),
   sliding_window_decision.2.2.1 10 60 30 5 0 0 10 (by decide) (by decide)
     (by norm_num),
   sliding_window_decision.2.2.2.1 10 60 30 6 0 0 10 (by decide) (by decide)
     (by norm_num)⟩

/-- C5: the token-bucket decision.  The refill
tokens = min(capacity, tokens + elapsed * refill_rate) with the elapsed
time clamped at zero and last_refill = now happens on every call,
including denials; the request is admitted, deducting cost, iff the
refilled tokens cover the cost, and a denial leaves the tokens unchanged
beyond the refill.  With capacity 5 and refill rate 1 per second starting
full, five immediate unit requests are admitted, the sixth is denied, and
after one second one more request is admitted. -/
theorem token_bucket_decision :
    (∀ (capacity rate cost : ℚ) (now : Nat) (s : TokenBucketState),
      (tokenBucketDecide capacity rate cost now s).1.last_refill = now) ∧
    (∀ (capacity rate cost : ℚ) (now : Nat) (s : TokenBucketState),
      cost ≤ min capacity
        (s.tokens + ((now - s.last_refill : Nat) : ℚ) * rate) →
      tokenBucketDecide capacity rate cost now s =
        (⟨min capacity (s.tokens + ((now - s.last_refill : Nat) : ℚ) * rate)
          - cost, now⟩, true)) ∧
    (∀ (capacity rate cost : ℚ) (now : Nat) (s : TokenBucketState),
      min capacity (s.tokens + ((now - s.last_refill : Nat) : ℚ) * rate)
        < cost →
      tokenBucketDecide capacity rate cost now s =
        (⟨min capacity (s.tokens + ((now - s.last_refill : Nat) : ℚ) * rate),
          now⟩, false)) ∧
    tokenBucketDecide 5 1 1 0 ⟨5, 0⟩ = (⟨4, 0⟩, true) ∧
    tokenBucketDecide 5 1 1 0 ⟨4, 0⟩ = (⟨3, 0⟩, true) ∧
    tokenBucketDecide 5 1 1 0 ⟨3, 0⟩ = (⟨2, 0⟩, true) ∧
    tokenBucketDecide 5 1 1 0 ⟨2, 0⟩ = (⟨1, 0⟩, true) ∧
    tokenBucketDecide 5 1 1 0 ⟨1, 0⟩ = (⟨0, 0⟩, true) ∧
    tokenBucketDecide 5 1 1 0 ⟨0, 0⟩ = (⟨0, 0⟩, false) ∧
    tokenBucketDecide 5 1 1 1 ⟨0, 0⟩ = (⟨0, 1⟩, true) := by
  refine ⟨?_, ?_, ?_, by norm_num [tokenBucketDecide],
    by norm_num [tokenBucketDecide], by norm_num [tokenBucketDecide],
    by norm_num [tokenBucketDecide], by norm_num [tokenBucketDecide],
    by norm_num [tokenBucketDecide], by norm_num [tokenBucketDecide]⟩
  · intro capacity rate cost now s
    dsimp [tokenBucketDecide]
    split <;> rfl
  · intro capacity rate cost now s hadm
    simp [tokenBucketDecide, hadm]
  · intro capacity rate cost now s hlt
    have hn : ¬ (cost ≤ min capacity
        (s.tokens + ((now - s.last_refill : Nat) : ℚ) * rate)) :=
      not_le.mpr hlt
    simp [tokenBucketDecide, hn]

/-- Witness for C5: the admit and deny clauses at the spec's concrete
scenario, capacity 5, rate 1, starting full at time 0. -/
theorem token_bucket_decision_witness :
    tokenBucketDecide 5 1 1 0 ⟨5, 0⟩ =
      (⟨min 5 ((5 : ℚ) + ((0 - 0 : Nat) : ℚ) * 1) - 1, 0⟩, true) ∧
    tokenBucketDecide 5 1 1 0 ⟨0, 0⟩ =
      (⟨min 5 ((0 : ℚ) + ((0 - 0 : Nat) : ℚ) * 1), 0⟩, false) :=
  ⟨token_bucket_decision.2.1 5 1 1 0 ⟨5, 0⟩ (by norm_num),
   token_bucket_decision.2.2.1 5 1 1 0 ⟨0, 0⟩ (by norm_num)⟩

/-- C6: the leaky-bucket decision.  The leak
level = max(0, level - elapsed * leak_rate) with the elapsed time clamped
at zero and last_leak = now happens on every call; the request is
admitted, adding cost to the level, iff the leaked level plus cost stays
within capacity, and a denial leaves the level unchanged beyond the leak.
With capacity 5, leak rate 1 per second and level 5, an immediate request
of cost 1 is denied, and after one second (level decayed to 4) the same
request is admitted. -/
theorem leaky_bucket_decision :
    (∀ (capacity rate cost : ℚ) (now : Nat) (s : LeakyBucketState),
      (leakyBucketDecide capacity rate cost now s).1.last_leak = now) ∧
    (∀ (capacity rate cost : ℚ) (now : Nat) (s : LeakyBucketState),
      max 0 (s.level - ((now - s.last_leak : Nat) : ℚ) * rate) + cost ≤
        capacity →
      leakyBucketDecide capacity rate cost now s =
        (⟨max 0 (s.level - ((now - s.last_leak : Nat) : ℚ) * rate) + cost,
          now⟩, true)) ∧
    (∀ (capacity rate cost : ℚ) (now : Nat) (s : LeakyBucketState),
      capacity <
        max 0 (s.level - ((now - s.last_leak : Nat) : ℚ) * rate) + cost →
      leakyBucketDecide capacity rate cost now s =
        (⟨max 0 (s.level - ((now - s.last_leak : Nat) : ℚ) * rate), now⟩,
          false)) ∧
    leakyBucketDecide 5 1 1 0 ⟨5, 0⟩ = (⟨5, 0⟩, false) ∧
    leakyBucketDecide 5 1 1 1 ⟨5, 0⟩ = (⟨5, 1⟩, true) := by
  refine ⟨?_, ?_, ?_, ?_, ?_⟩
  · intro capacity rate cost now s
    dsimp [leakyBucketDecide]
    split <;> rfl
  · intro capacity rate cost now s hadm
    simp [leakyBucketDecide, hadm]
  · intro capacity rate cost now s hlt
    have hn : ¬ (max 0 (s.level - ((now - s.last_leak : Nat) : ℚ) * rate) +
        cost ≤ capacity) := not_le.mpr hlt
    simp [leakyBucketDecide, hn]
  · norm_num [leakyBucketDecide]
  · norm_num [leakyBucketDecide]

/-- Witness for C6: the deny and admit clauses at the spec's concrete
scenario, capacity 5, leak rate 1, level 5. -/
theorem leaky_bucket_decision_witness :
    leakyBucketDecide 5 1 1 0 ⟨5, 0⟩ =
      (⟨max 0 ((5 : ℚ) - ((0 - 0 : Nat) : ℚ) * 1), 0⟩, false) ∧
    leakyBucketDecide 5 1 1 1 ⟨5, 0⟩ =
      (⟨max 0 ((5 : ℚ) - ((1 - 0 : Nat) : ℚ) * 1) + 1, 1⟩, true) :=
  ⟨leaky_bucket_decision.2.2.1 5 1 1 0 ⟨5, 0⟩ (by norm_num),
   leaky_bucket_decision.2.1 5 1 1 1 ⟨5, 0⟩ (by norm_num)⟩

/-- C7: is_ratelimited over optional state bytes, for any variant's
decoder, default state, decision function and encoder: absent bytes run
the decision on the default state; successfully decoded bytes run the
decision on the decoded state, returning the newly encoded state on
admission and RateExceeded on denial; and bytes whose decoding fails with
MalformedValue surface that exact error. -/
theorem is_ratelimited_dispatch :
    ∀ (σ : Type) (fb : List Nat → Except RateLimiterError σ)
      (default_state : σ) (dec : σ → Option σ)
      (tb : σ → Except RateLimiterError (List Nat)),
    (is_ratelimited fb default_state dec tb none =
      run_decision dec tb default_state) ∧
    (∀ (bytes : List Nat) (s s2 : σ), fb bytes = Except.ok s →
      dec s = some s2 →
      is_ratelimited fb default_state dec tb (some bytes) = tb s2) ∧
    (∀ (bytes : List Nat) (s : σ), fb bytes = Except.ok s → dec s = none →
      is_ratelimited fb default_state dec tb (some bytes) =
        Except.error RateLimiterError.RateExceeded) ∧
    (∀ (bytes : List Nat) (oe : Option BincodeError),
      fb bytes = Except.error (RateLimiterError.MalformedValue oe) →
      is_ratelimited fb default_state dec tb (some bytes) =
        Except.error (RateLimiterError.MalformedValue oe)) ∧
    (∀ s2 : σ, dec default_state = some s2 →
      is_ratelimited fb default_state dec tb none = tb s2) ∧
    (dec default_state = none →
      is_ratelimited fb default_state dec tb none =
        Except.error RateLimiterError.RateExceeded) := by
  intro σ fb default_state dec tb
  refine ⟨rfl, ?_, ?_, ?_, ?_, ?_⟩
  · intro bytes s s2 h1 h2
    simp [is_ratelimited, h1, run_decision, h2]
  · intro bytes s h1 h2
    simp [is_ratelimited, h1, run_decision, h2]
  · intro bytes oe h
    simp [is_ratelimited, h]
  · intro s2 h
    simp [is_ratelimited, run_decision, h]
  · intro h
    simp [is_ratelimited, run_decision, h]

/-- Witness for C7: the fixed-window instantiation (limit 3, window 60,
time 0, cost 1).  Bytes decoding to the state (0, 0) are admitted and
yield the encoding of (0, 1); bytes decoding to (0, 3) are denied with
RateExceeded; a one-byte input fails to decode and surfaces
MalformedValue with the decode diagnostic. -/
theorem is_ratelimited_dispatch_witness :
    is_ratelimited FixedWindowInstance.from_bytes ⟨0, 0⟩ fwDec
      FixedWindowInstance.to_bytes (some fwBytes0) =
      FixedWindowInstance.to_bytes ⟨0, 1⟩ ∧
    is_ratelimited FixedWindowInstance.from_bytes ⟨0, 0⟩ fwDec
      FixedWindowInstance.to_bytes (some fwBytes3) =
      Except.error RateLimiterError.RateExceeded ∧
    is_ratelimited FixedWindowInstance.from_bytes ⟨0, 0⟩ fwDec
      FixedWindowInstance.to_bytes (some [0]) =
      Except.error (RateLimiterError.MalformedValue
        (some BincodeError.unexpectedEof)) := by
  obtain ⟨-, hadm, hdeny, hmal, -, -⟩ :=
    is_ratelimited_dispatch FixedWindowInstance
      FixedWindowInstance.from_bytes ⟨0, 0⟩ fwDec
      FixedWindowInstance.to_bytes
  exact ⟨hadm fwBytes0 ⟨0, 0⟩ ⟨0, 1⟩ rfl rfl,
    hdeny fwBytes3 ⟨0, 3⟩ rfl rfl,
    hmal [0] (some BincodeError.unexpectedEof) rfl⟩

/-- C9: every decision function and the dispatch entry point are
deterministic: two calls on identical inputs produce identical
(new state, outcome) results. -/
theorem decision_determinism :
    (∀ (L W now cost : Nat) (s1 s2 : FixedWindowInstance), s1 = s2 →
      fixedWindowDecide L W now cost s1 = fixedWindowDecide L W now cost s2) ∧
    (∀ (L W now cost : Nat) (s1 s2 : SlidingWindowInstance), s1 = s2 →
      slidingWindowDecide L W now cost s1 =
        slidingWindowDecide L W now cost s2) ∧
    (∀ (capacity rate cost : ℚ) (now : Nat) (s1 s2 : TokenBucketState),
      s1 = s2 →
      tokenBucketDecide capacity rate cost now s1 =
        tokenBucketDecide capacity rate cost now s2) ∧
    (∀ (capacity rate cost : ℚ) (now : Nat) (s1 s2 : LeakyBucketState),
      s1 = s2 →
      leakyBucketDecide capacity rate cost now s1 =
        leakyBucketDecide capacity rate cost now s2) ∧
    (∀ (σ : Type) (fb : List Nat → Except RateLimiterError σ)
      (default_state : σ) (dec : σ → Option σ)
      (tb : σ → Except RateLimiterError (List Nat))
      (v1 v2 : Option (List Nat)), v1 = v2 →
      is_ratelimited fb default_state dec tb v1 =
        is_ratelimited fb default_state dec tb v2) := by
  refine ⟨?_, ?_, ?_, ?_, ?_⟩
  · intro L W now cost s1 s2 h; rw [h]
  · intro L W now cost s1 s2 h; rw [h]
  · intro capacity rate cost now s1 s2 h; rw [h]
  · intro capacity rate cost now s1 s2 h; rw [h]
  · intro σ fb default_state dec tb v1 v2 h; rw [h]

/-- Witness for C9: determinism evaluated at concrete repeated calls for
each algorithm and for the dispatch entry point. -/
theorem decision_determinism_witness :
    fixedWindowDecide 3 60 0 1 ⟨0, 0⟩ = fixedWindowDecide 3 60 0 1 ⟨0, 0⟩ ∧
    slidingWindowDecide 10 60 30 5 ⟨0, 0, 10⟩ =
      slidingWindowDecide 10 60 30 5 ⟨0, 0, 10⟩ ∧
    tokenBucketDecide 5 1 1 0 ⟨5, 0⟩ = tokenBucketDecide 5 1 1 0 ⟨5, 0⟩ ∧
    leakyBucketDecide 5 1 1 0 ⟨5, 0⟩ = leakyBucketDecide 5 1 1 0 ⟨5, 0⟩ ∧
    is_ratelimited FixedWindowInstance.from_bytes ⟨0, 0⟩ fwDec
      FixedWindowInstance.to_bytes (some fwBytes0) =
      is_ratelimited FixedWindowInstance.from_bytes ⟨0, 0⟩ fwDec
        FixedWindowInstance.to_bytes (some fwBytes0) :=
  ⟨decision_determinism.1 3 60 0 1 ⟨0, 0⟩ ⟨0, 0⟩ rfl,
   decision_determinism.2.1 10 60 30 5 ⟨0, 0, 10⟩ ⟨0, 0, 10⟩ rfl,
   decision_determinism.2.2.1 5 1 1 0 ⟨5, 0⟩ ⟨5, 0⟩ rfl,
   decision_determinism.2.2.2.1 5 1 1 0 ⟨5, 0⟩ ⟨5, 0⟩ rfl,
   decision_determinism.2.2.2.2 FixedWindowInstance
     FixedWindowInstance.from_bytes ⟨0, 0⟩ fwDec FixedWindowInstance.to_bytes
     (some fwBytes0) (some fwBytes0) rfl⟩

end Brakes
